import Mathlib

/-!
Shallow embedding of the LED GPIO platform-driver examples in
`src/write_linux_platform_driver/`:
  - `simple_led_platform_driver/led_platform_driver_with_devicefile.c`
    (char-device byte-stream surface: `led_read`, `led_write`, `led_open`,
    probe with goto rollback chain, remove),
  - `simple_led_platform_driver/led_platform_driver_with_sysfs_attributes.c`
    (sysfs attribute surface: `value_show`, `value_store` with mutex),
  - `simple_led_platform_driver/simple_led_platform_driver_attributes_group.c`
    (lockless global-singleton attribute variant),
  - `register_dt_manually/gpio_led_driver.c` (same attribute surface code).
Machine integers are modelled as `Int`/`Nat`; errno returns are negative
`Int`s as in the C sources.  Operations additionally emit an event trace
(lock/unlock, value reads/writes, gpio writes) so that locking discipline
and teardown ordering can be stated.
-/

namespace LedDriver

/-- errno value used by the drivers for invalid input (`-EINVAL`). -/
def EINVAL : Int := 22

/-- errno value used for failed user/kernel copies (`-EFAULT`). -/
def EFAULT : Int := 14

/-- errno value for allocation failure (`-ENOMEM`). -/
def ENOMEM : Int := 12

/-- errno value the kernel uses for operations on a vanished device (`-ENODEV`). -/
def ENODEV : Int := 19

/-- Numeric value of a digit string, most significant digit first
(the accumulator loop of the kernel's `_parse_integer`). -/
def digitsVal (ds : List Char) : Nat :=
  ds.foldl (fun a c => a * 10 + (c.toNat - 48)) 0

/-- Body of the kernel's `kstrtol` base-10 parse after the optional sign:
at least one decimal digit, then optionally a single trailing newline,
then the end of the string; anything else is a parse failure.
(Overflow checking of the real `kstrtol` is not modelled; all inputs of
interest are small.) -/
def kstrtolCore (cs : List Char) : Option Nat :=
  let ds := cs.takeWhile Char.isDigit
  let rest := cs.dropWhile Char.isDigit
  if ds.isEmpty then none
  else
    match rest with
    | [] => some (digitsVal ds)
    | ['\n'] => some (digitsVal ds)
    | _ => none

/-- The kernel's `kstrtol(buf, 10, &val)`: optional leading `'-'` or `'+'`,
then `kstrtolCore`.  `none` models the nonzero error return. -/
def kstrtol (s : String) : Option Int :=
  match s.data with
  | [] => none
  | c :: cs =>
    if c = '-' then (kstrtolCore cs).map (fun n => -(n : Int))
    else if c = '+' then (kstrtolCore cs).map (fun n => (n : Int))
    else (kstrtolCore (c :: cs)).map (fun n => (n : Int))

/-- The mutable fields of `struct led_gpio_dev` that the surface operations
touch: `value` (the C `int value`) and the level currently driven on the
GPIO line (the accumulated effect of `gpiod_set_value` calls). -/
structure LedState where
  value : Int
  gpio : Int
deriving DecidableEq, Repr

/-- Events emitted by a surface operation, in program order:
mutex lock/unlock, a read or write of `led->value`, and a
`gpiod_set_value` call. -/
inductive Ev where
  | lock
  | unlock
  | readVal (v : Int)
  | writeVal (v : Int)
  | gpioSet (v : Int)
deriving DecidableEq, Repr

/-- Result of a sysfs `show` callback: the emitted text and the event trace. -/
structure ShowRes where
  out : String
  evs : List Ev
deriving DecidableEq, Repr

/-- Result of a sysfs `store` callback: the `ssize_t` return value
(negative errno or the byte count), the updated device state, and the
event trace. -/
structure StoreRes where
  ret : Int
  st : LedState
  evs : List Ev
deriving DecidableEq, Repr

/-- `value_show` of `led_platform_driver_with_sysfs_attributes.c` lines 28-46
(identical in `gpio_led_driver.c` lines 33-44): lock, read `led->value`,
unlock, then `sysfs_emit(buf, "%d\n", val)`. -/
def value_show (s : LedState) : ShowRes :=
  { out := toString s.value ++ "\n",
    evs := [Ev.lock, Ev.readVal s.value, Ev.unlock] }

/-- `value_store` of `led_platform_driver_with_sysfs_attributes.c` lines 50-82
(identical in `gpio_led_driver.c` lines 46-63): `kstrtol` parse
(failure returns `-EINVAL` before anything is touched), then under the lock
`led->value = !!val` and `gpiod_set_value(led->led_gpiod, led->value)`,
then return `count`. -/
def value_store (buf : String) (count : Nat) (s : LedState) : StoreRes :=
  match kstrtol buf with
  | none => { ret := -EINVAL, st := s, evs := [] }
  | some v =>
    let nv : Int := if v = 0 then 0 else 1
    { ret := (count : Int),
      st := { value := nv, gpio := nv },
      evs := [Ev.lock, Ev.writeVal nv, Ev.gpioSet nv, Ev.unlock] }

/-- `value_show` of `simple_led_platform_driver_attributes_group.c`
lines 28-42: reads the global `led.value` with no lock. -/
def value_show_group (s : LedState) : ShowRes :=
  { out := toString s.value ++ "\n",
    evs := [Ev.readVal s.value] }

/-- `value_store` of `simple_led_platform_driver_attributes_group.c`
lines 46-72: same parse and normalization as the locked variant, but the
write of `led.value` and the `gpiod_set_value` happen with no lock
(the struct of that file has no mutex member). -/
def value_store_group (buf : String) (count : Nat) (s : LedState) : StoreRes :=
  match kstrtol buf with
  | none => { ret := -EINVAL, st := s, evs := [] }
  | some v =>
    let nv : Int := if v = 0 then 0 else 1
    { ret := (count : Int),
      st := { value := nv, gpio := nv },
      evs := [Ev.writeVal nv, Ev.gpioSet nv] }

/-- An open file on the char device of
`led_platform_driver_with_devicefile.c`: the only per-open state the driver
reads is the file position `*ppos` (the read cursor); `private_data` is the
device pointer installed by `led_open`. -/
structure Session where
  pos : Nat
deriving DecidableEq, Repr

/-- `led_open` (`led_platform_driver_with_devicefile.c` lines 74-86): stores
the device pointer in `private_data` and returns 0; the kernel starts the
new file at position 0. -/
def led_open : Session := { pos := 0 }

/-- Result of `led_read`: the `ssize_t` return value, the byte delivered to
user space (if any), the updated session, and the event trace. -/
structure ReadRes where
  ret : Int
  byte : Option Char
  sess : Session
  evs : List Ev
deriving DecidableEq, Repr

/-- `led_read` (`led_platform_driver_with_devicefile.c` lines 27-46):
under the lock compute `val = led->value ? '1' : '0'`; then if `*ppos != 0`
return 0 (end of stream); then `copy_to_user` of the single byte
(failure returns `-EFAULT`, modelled by `copyOk = false`); then set
`*ppos = 1` and return 1.  The `count` argument is never consulted. -/
def led_read (copyOk : Bool) (s : LedState) (sess : Session) : ReadRes :=
  let val : Char := if s.value ≠ 0 then '1' else '0'
  let tr : List Ev := [Ev.lock, Ev.readVal s.value, Ev.unlock]
  if sess.pos ≠ 0 then { ret := 0, byte := none, sess := sess, evs := tr }
  else if ¬ copyOk then { ret := -EFAULT, byte := none, sess := sess, evs := tr }
  else { ret := 1, byte := some val, sess := { pos := 1 }, evs := tr }

/-- Result of `led_write`: the `ssize_t` return value, the updated device
state and the event trace. -/
structure WriteRes where
  ret : Int
  st : LedState
  evs : List Ev
deriving DecidableEq, Repr

/-- `led_write` (`led_platform_driver_with_devicefile.c` lines 48-72):
`count < 1` returns `-EINVAL`; `copy_from_user` of the first byte
(failure, modelled by `copyOk = false` or an inaccessible buffer, returns
`-EFAULT`); then under the lock, first byte `'1'` sets `value = 1` and
drives the gpio to 1, any other first byte sets both to 0; returns `count`
(all bytes accepted). -/
def led_write (copyOk : Bool) (buf : List Char) (count : Nat) (s : LedState) :
    WriteRes :=
  if count < 1 then { ret := -EINVAL, st := s, evs := [] }
  else
    match (if copyOk then buf.head? else none) with
    | none => { ret := -EFAULT, st := s, evs := [] }
    | some c =>
      if c = '1' then
        { ret := (count : Int),
          st := { value := 1, gpio := 1 },
          evs := [Ev.lock, Ev.writeVal 1, Ev.gpioSet 1, Ev.unlock] }
      else
        { ret := (count : Int),
          st := { value := 0, gpio := 0 },
          evs := [Ev.lock, Ev.writeVal 0, Ev.gpioSet 0, Ev.unlock] }

/-! ### Probe rollback chain (devicefile variant)

`led_driver_probe` of `led_platform_driver_with_devicefile.c` lines 97-225.
After the devm-managed allocation and gpio acquisition, the probe performs
an ordered chain of four fallible registrations, unwound by goto labels:
`alloc_chrdev_region`, `class_create`, `device_create`, `cdev_add`. -/

/-- The four registrations of the probe's rollback chain, in the order the
code acquires them. -/
inductive Res where
  | chrdev
  | cls
  | devnode
  | cdevAdd
deriving DecidableEq, Repr

/-- Acquisition and release events of the probe chain. -/
inductive PEv where
  | acq (r : Res)
  | rel (r : Res)
deriving DecidableEq, Repr

/-- Fault environment for one probe run: which of the fallible calls fail,
and with which (negative errno) value.  `none` means the call succeeds. -/
structure ProbeEnv where
  allocFail : Bool
  gpioErr : Option Int
  chrdevErr : Option Int
  classErr : Option Int
  deviceErr : Option Int
  cdevErr : Option Int
deriving DecidableEq, Repr

/-- The `err_unregister_chrdev` label of the probe: `unregister_chrdev_region`. -/
def err_unregister_chrdev : List PEv := [PEv.rel Res.chrdev]

/-- The `err_destroy_class` label: `class_destroy` then fall through to
`err_unregister_chrdev`. -/
def err_destroy_class : List PEv := PEv.rel Res.cls :: err_unregister_chrdev

/-- The `err_destroy_device` label: `device_destroy` then fall through to
`err_destroy_class`. -/
def err_destroy_device : List PEv := PEv.rel Res.devnode :: err_destroy_class

/-- `led_driver_probe` (`led_platform_driver_with_devicefile.c` lines
97-225) under the fault environment `env`: returns the C return value and
the acquire/release trace of the four-step registration chain.
`devm_kzalloc` failure returns `-ENOMEM` and `devm_gpiod_get` failure
returns its error, both before any chain step; each chain step's failure
jumps to the matching goto label. -/
def led_driver_probe (env : ProbeEnv) : Int × List PEv :=
  if env.allocFail then (-ENOMEM, [])
  else
    match env.gpioErr with
    | some e => (e, [])
    | none =>
      match env.chrdevErr with
      | some e => (e, [])
      | none =>
        let t1 : List PEv := [PEv.acq Res.chrdev]
        match env.classErr with
        | some e => (e, t1 ++ err_unregister_chrdev)
        | none =>
          let t2 := t1 ++ [PEv.acq Res.cls]
          match env.deviceErr with
          | some e => (e, t2 ++ err_destroy_class)
          | none =>
            let t3 := t2 ++ [PEv.acq Res.devnode]
            match env.cdevErr with
            | some e => (e, t3 ++ err_destroy_device)
            | none => (0, t3 ++ [PEv.acq Res.cdevAdd])

/-- The registration chain in acquisition order, as the claim states it. -/
def probeChain : List Res := [Res.chrdev, Res.cls, Res.devnode, Res.cdevAdd]

/-- The fault environment's error slot for chain step `k`
(0 = chrdev region, 1 = class, 2 = device node, 3 = cdev). -/
def stepErr (env : ProbeEnv) : Nat → Option Int
  | 0 => env.chrdevErr
  | 1 => env.classErr
  | 2 => env.deviceErr
  | 3 => env.cdevErr
  | _ => none

/-! ### Remove / detach (devicefile variant) -/

/-- Teardown events of a detach: `gpiod_set_value`, unregistration of one
chain resource, and the devm-managed release of the gpio descriptor that
runs after `remove` returns. -/
inductive REv where
  | gpioSet (v : Int)
  | rel (r : Res)
  | gpioRelease
deriving DecidableEq, Repr

/-- `led_driver_remove` (`led_platform_driver_with_devicefile.c` lines
227-248): `gpiod_set_value(led->led_gpiod, 0)`, then `cdev_del`,
`device_destroy`, `class_destroy`, `unregister_chrdev_region`. -/
def led_driver_remove_df : List REv :=
  [REv.gpioSet 0, REv.rel Res.cdevAdd, REv.rel Res.devnode,
   REv.rel Res.cls, REv.rel Res.chrdev]

/-- The full detach as observed past the driver: the `remove` body followed
by the devm release of the gpio descriptor acquired with `devm_gpiod_get`
in probe (the kernel runs devm releases after `remove` returns). -/
def detach_df : List REv := led_driver_remove_df ++ [REv.gpioRelease]

/-! ### Remove as a state transition (sysfs-attributes variant)

`led_driver_remove` of `led_platform_driver_with_sysfs_attributes.c` lines
237-265 consults the platform drvdata pointer and the `dev` / `led_class`
fields, but never clears any of them. -/

/-- The fields of the sysfs-variant `struct led_gpio_dev` that its `remove`
consults: whether `led->dev` and `led->led_class` are non-NULL
(both set on every successful probe). -/
structure SysfsDev where
  hasDev : Bool
  hasClass : Bool
deriving DecidableEq, Repr

/-- The platform device as `remove` sees it: the drvdata pointer installed
by `platform_set_drvdata` in probe (`none` = never set / no bound
instance). -/
structure PdevState where
  drvdata : Option SysfsDev
deriving DecidableEq, Repr

/-- Teardown events of the sysfs-variant remove. -/
inductive SREv where
  | gpioSet (v : Int)
  | relGroup
  | relDevnode
  | relClass
deriving DecidableEq, Repr

/-- `led_driver_remove` (`led_platform_driver_with_sysfs_attributes.c`
lines 237-265): `platform_get_drvdata`; if NULL return 0; else
`gpiod_set_value(…, 0)`, then conditionally `sysfs_remove_group`,
`device_destroy`, `class_destroy`.  The function modifies neither the
drvdata pointer nor the struct fields, so the returned `PdevState` is the
input unchanged. -/
def led_driver_remove_sysfs (p : PdevState) : Int × PdevState × List SREv :=
  match p.drvdata with
  | none => (0, p, [])
  | some led =>
    let e1 : List SREv := [SREv.gpioSet 0]
    let e2 := e1 ++ (if led.hasDev then [SREv.relGroup] else [])
    let e3 := e2 ++ (if led.hasClass ∧ led.hasDev then [SREv.relDevnode] else [])
    let e4 := e3 ++ (if led.hasClass then [SREv.relClass] else [])
    (0, p, e4)

/-! ### Lock discipline over event traces -/

/-- `guardedFrom d tr = true` iff every `readVal`/`writeVal` event in `tr`
happens while the mutex hold depth (starting at `d`) is positive. -/
def guardedFrom (d : Nat) : List Ev → Bool
  | [] => true
  | Ev.lock :: r => guardedFrom (d + 1) r
  | Ev.unlock :: r => guardedFrom (d - 1) r
  | Ev.readVal _ :: r => decide (0 < d) && guardedFrom d r
  | Ev.writeVal _ :: r => decide (0 < d) && guardedFrom d r
  | Ev.gpioSet _ :: r => guardedFrom d r

/-- Every access of the stored value in the trace happens under the lock. -/
def guardedB (tr : List Ev) : Bool := guardedFrom 0 tr

/-- Net lock depth change of a trace. -/
def depthAfter (d : Int) : List Ev → Int
  | [] => d
  | Ev.lock :: r => depthAfter (d + 1) r
  | Ev.unlock :: r => depthAfter (d - 1) r
  | _ :: r => depthAfter d r

/-- The operation released the lock on its exit path: the trace ends with
net lock depth 0. -/
def lockBalanced (tr : List Ev) : Bool := depthAfter 0 tr = 0

/-! ### Host-framework dispatch

Modelled from the spec: the spec treats "the host platform/bus framework
… and the filesystem/sysfs transport mechanics" as external collaborators
given, not reimplemented (§1), and states that a surface operation issued
against a detached instance fails with a not-available condition
(§4.2-4.4, §7 `NotAvailable`).  Transport-wise, once `remove` has run
`cdev_del`, `device_destroy`, `class_destroy` (devicefile variant, lines
241-243) or `sysfs_remove_group` / `device_destroy` / `class_destroy`
(sysfs variant, lines 255-261), the surface registrations are gone and the
kernel rejects a freshly issued operation with `-ENODEV` without entering
the driver.  `Sys.reg` records whether the registrations are present. -/
structure Sys where
  reg : Bool
  st : LedState
deriving DecidableEq, Repr

/-- Modelled from the spec: dispatched sysfs `show` — rejected with
`-ENODEV` when the registration is gone, otherwise runs `value_show`. -/
def sys_show (sys : Sys) : Int × String × Sys :=
  if sys.reg then
    let r := value_show sys.st
    ((r.out.length : Int), r.out, sys)
  else (-ENODEV, "", sys)

/-- Modelled from the spec: dispatched sysfs `store`. -/
def sys_store (buf : String) (count : Nat) (sys : Sys) : Int × Sys :=
  if sys.reg then
    let r := value_store buf count sys.st
    (r.ret, { reg := sys.reg, st := r.st })
  else (-ENODEV, sys)

/-- Modelled from the spec: dispatched `open` on the char device node. -/
def sys_open (sys : Sys) : Int × Option Session :=
  if sys.reg then (0, some led_open) else (-ENODEV, none)

/-- Modelled from the spec: dispatched `read` on an open char-device file. -/
def sys_read (copyOk : Bool) (sys : Sys) (sess : Session) :
    Int × Option Char × Session × Sys :=
  if sys.reg then
    let r := led_read copyOk sys.st sess
    (r.ret, r.byte, r.sess, sys)
  else (-ENODEV, none, sess, sys)

/-- Modelled from the spec: dispatched `write` on an open char-device file. -/
def sys_write (copyOk : Bool) (buf : List Char) (count : Nat) (sys : Sys) :
    Int × Sys :=
  if sys.reg then
    let r := led_write copyOk buf count sys.st
    (r.ret, { reg := sys.reg, st := r.st })
  else (-ENODEV, sys)

/-- Detach of an attached instance, as observable through the dispatch
layer: `remove` drives the gpio to 0 (devicefile line 239, sysfs line 251)
and unregisters every surface, so afterwards `reg = false`; the stored
value field itself is not written by `remove`. -/
def sys_detach (sys : Sys) : Sys :=
  { reg := false, st := { value := sys.st.value, gpio := 0 } }

/-- The byte a read of the device yields when the stored value is `v`
(the claims' observation encoding for `v ∈ {0,1}`). -/
def digitChar (v : Int) : Char := if v = 0 then '0' else '1'

/-- The text that stores the value `v` through the attribute surface and
that `show` yields back without its newline (the claims' encoding for
`v ∈ {0,1}`). -/
def digitStr (v : Int) : String := if v = 0 then "0" else "1"

/-! ### Theorems -/

/-- Claim C5: on the attribute surface, `store "0"` sets the stored value
to 0 and succeeds (returns the count), `store "7"` sets it to 1, and in
general any successfully parsed nonzero integer is normalized to 1;
`store "abc"` fails with `-EINVAL` and leaves the whole state unchanged. -/
theorem store_parse_cases (s : LedState) :
    (value_store "0" 1 s).st.value = 0 ∧ (value_store "0" 1 s).ret = 1 ∧
    (value_store "7" 1 s).st.value = 1 ∧ (value_store "7" 1 s).ret = 1 ∧
    (value_store "abc" 3 s).ret = -EINVAL ∧ (value_store "abc" 3 s).st = s ∧
    (∀ (buf : String) (count : Nat) (n : Int), kstrtol buf = some n →
      n ≠ 0 → (value_store buf count s).st.value = 1) := by
  refine ⟨rfl, rfl, rfl, rfl, rfl, rfl, ?_⟩
  intro buf count n h hn
  simp [value_store, h, hn]

/-- Witness for C5: applying `store_parse_cases` at a concrete state, and
its general clause at the input `"7"`. -/
theorem store_parse_cases_w :
    (value_store "7" 1 { value := 0, gpio := 0 }).st.value = 1 :=
  (store_parse_cases { value := 0, gpio := 0 }).2.2.2.2.2.2 "7" 1 7 rfl
    (by decide)

/-- Claim C10: any negative decimal input on the attribute surface parses
successfully, so the store succeeds (returns the count) and the `!!val`
normalization sets the stored value to 1, the same as a positive nonzero
input. -/
theorem store_negative_input (s : LedState) (buf : String) (count : Nat)
    (n : Int) (h : kstrtol buf = some n) (hn : n < 0) :
    (value_store buf count s).ret = (count : Int) ∧
    (value_store buf count s).st.value = 1 := by
  have hn0 : n ≠ 0 := by omega
  simp [value_store, h, hn0]

/-- Witness for C10: `store_negative_input` at the input `"-5"` of length 2. -/
theorem store_negative_input_w :
    (value_store "-5" 2 { value := 0, gpio := 0 }).ret = 2 ∧
    (value_store "-5" 2 { value := 0, gpio := 0 }).st.value = 1 :=
  store_negative_input { value := 0, gpio := 0 } "-5" 2 (-5) rfl (by decide)

/-- Claim C7: `led_write` rejects an empty input (`count < 1`) with
`-EINVAL` and no mutation; a failed user-space copy returns `-EFAULT`
(distinct from `-EINVAL`) with no mutation; otherwise a leading byte `'1'`
sets the stored value to 1, any other leading byte sets it to 0, the bytes
after the first are ignored, and the full input length is returned. -/
theorem write_first_byte (s : LedState) (c : Char) (rest : List Char)
    (copyOk : Bool) :
    ((led_write copyOk [] 0 s).ret = -EINVAL ∧ (led_write copyOk [] 0 s).st = s) ∧
    ((led_write false (c :: rest) (rest.length + 1) s).ret = -EFAULT ∧
      (led_write false (c :: rest) (rest.length + 1) s).st = s) ∧
    ((led_write true ('1' :: rest) (rest.length + 1) s).st.value = 1 ∧
      (led_write true ('1' :: rest) (rest.length + 1) s).ret =
        ((rest.length + 1 : Nat) : Int)) ∧
    (c ≠ '1' →
      (led_write true (c :: rest) (rest.length + 1) s).st.value = 0 ∧
      (led_write true (c :: rest) (rest.length + 1) s).ret =
        ((rest.length + 1 : Nat) : Int)) ∧
    -EFAULT ≠ -EINVAL := by
  refine ⟨⟨rfl, rfl⟩, ?_, ?_, ?_, by decide⟩
  · constructor <;> simp [led_write]
  · constructor <;> simp [led_write]
  · intro hc
    constructor <;> simp [led_write, hc]

/-- Witness for C7: `write_first_byte` with the non-`'1'` byte `'a'`. -/
theorem write_first_byte_w :
    (led_write true ['a'] 1 { value := 1, gpio := 1 }).st.value = 0 :=
  ((write_first_byte { value := 1, gpio := 1 } 'a' [] true).2.2.2.1
    (by decide)).1

/-- Claim C6: a read on a session with cursor 0 returns exactly one byte,
`'1'` if the stored value is nonzero else `'0'`, and moves the cursor to a
nonzero position; a read on a session with nonzero cursor returns 0 bytes
and no data; a fresh `open` yields cursor 0, so its first read returns the
current value again. -/
theorem read_session_cursor (s : LedState) (sess : Session) :
    (sess.pos = 0 →
      (led_read true s sess).ret = 1 ∧
      (led_read true s sess).byte = some (if s.value ≠ 0 then '1' else '0') ∧
      (led_read true s sess).sess.pos ≠ 0) ∧
    (sess.pos ≠ 0 →
      (led_read true s sess).ret = 0 ∧ (led_read true s sess).byte = none ∧
      (led_read true s sess).sess = sess) ∧
    (led_open.pos = 0 ∧
      (led_read true s led_open).ret = 1 ∧
      (led_read true s led_open).byte = some (if s.value ≠ 0 then '1' else '0')) := by
  refine ⟨?_, ?_, rfl, ?_, ?_⟩
  · intro h
    refine ⟨?_, ?_, ?_⟩ <;> simp [led_read, h]
  · intro h
    refine ⟨?_, ?_, ?_⟩ <;> simp [led_read, h]
  · simp [led_read, led_open]
  · simp [led_read, led_open]

/-- Witness for C6: `read_session_cursor` on a fresh session with the value
on. -/
theorem read_session_cursor_w :
    (led_read true { value := 1, gpio := 1 } { pos := 0 }).byte = some '1' := by
  have h :=
    ((read_session_cursor { value := 1, gpio := 1 } { pos := 0 }).1 rfl).2.1
  simpa using h

/-- Claim C3: after detach has completed, every dispatched surface
operation (attribute show/store, byte-stream open/read/write) returns the
not-available error `-ENODEV` and leaves the system state — stored value
and gpio line — unchanged. -/
theorem post_detach_rejection (sys : Sys) (buf : String) (count : Nat)
    (copyOk : Bool) (sess : Session) (bytes : List Char) (cnt : Nat) :
    sys_show (sys_detach sys) = (-ENODEV, "", sys_detach sys) ∧
    sys_store buf count (sys_detach sys) = (-ENODEV, sys_detach sys) ∧
    sys_open (sys_detach sys) = (-ENODEV, none) ∧
    sys_read copyOk (sys_detach sys) sess = (-ENODEV, none, sess, sys_detach sys) ∧
    sys_write copyOk bytes cnt (sys_detach sys) = (-ENODEV, sys_detach sys) :=
  ⟨rfl, rfl, rfl, rfl, rfl⟩

/-- Claim C9: detach first drives the gpio to the safe value 0, then
releases the recorded registrations in strict reverse order of their
acquisition during a successful probe, then the devm layer releases the
gpio descriptor; the only gpio level ever written during detach is 0. -/
theorem detach_ordering :
    detach_df =
      REv.gpioSet 0 :: ((probeChain.reverse.map REv.rel) ++ [REv.gpioRelease]) ∧
    led_driver_probe
        { allocFail := false, gpioErr := none, chrdevErr := none,
          classErr := none, deviceErr := none, cdevErr := none } =
      (0, probeChain.map PEv.acq) ∧
    detach_df.filterMap
        (fun e => match e with | REv.gpioSet v => some v | _ => none) = [0] :=
  ⟨rfl, rfl, rfl⟩

/-- Claim C4: for `v ∈ {0,1}`, writing `v` and then reading it back
returns `v`, through all four combinations of the attribute surface
(`value_store` / `value_show`) and the byte-stream surface (`led_write` /
`led_read` on a fresh session). -/
theorem write_read_round_trip (v : Int) (h : v = 0 ∨ v = 1) (s : LedState) :
    ((value_show (value_store (digitStr v) 1 s).st).out = digitStr v ++ "\n") ∧
    ((led_read true (value_store (digitStr v) 1 s).st led_open).byte =
      some (digitChar v)) ∧
    ((value_show (led_write true [digitChar v] 1 s).st).out =
      digitStr v ++ "\n") ∧
    ((led_read true (led_write true [digitChar v] 1 s).st led_open).byte =
      some (digitChar v)) := by
  rcases h with h | h <;> subst h <;> exact ⟨rfl, rfl, rfl, rfl⟩

/-- Witness for C4: `write_read_round_trip` at `v = 1` from the all-off
state. -/
theorem write_read_round_trip_w :
    (value_show (value_store "1" 1 { value := 0, gpio := 0 }).st).out = "1\n" :=
  (write_read_round_trip 1 (Or.inr rfl) { value := 0, gpio := 0 }).1

/-- Claim C1 (confirmed): if chain step `k` of the probe's four-step
registration chain (chrdev region, class, device node, cdev) fails with
error `e` while all earlier steps succeed, the probe's trace is exactly
the acquisitions of steps `0..k-1` followed by their releases in reverse
order — nothing from step `k` on is ever acquired — and the probe returns
`e` unchanged. -/
theorem probe_rollback (env : ProbeEnv) (k : Nat) (hk : k < 4) (e : Int)
    (hAlloc : env.allocFail = false) (hGpio : env.gpioErr = none)
    (hPre : ∀ i, i < k → stepErr env i = none)
    (hFail : stepErr env k = some e) :
    led_driver_probe env =
      (e, (probeChain.take k).map PEv.acq ++
        ((probeChain.take k).reverse.map PEv.rel)) := by
  interval_cases k
  · simp only [stepErr] at hFail
    simp [led_driver_probe, hAlloc, hGpio, hFail, probeChain]
  · have h0 := hPre 0 (by omega)
    simp only [stepErr] at h0 hFail
    simp [led_driver_probe, hAlloc, hGpio, h0, hFail,
      err_unregister_chrdev, probeChain]
  · have h0 := hPre 0 (by omega)
    have h1 := hPre 1 (by omega)
    simp only [stepErr] at h0 h1 hFail
    simp [led_driver_probe, hAlloc, hGpio, h0, h1, hFail,
      err_destroy_class, err_unregister_chrdev, probeChain]
  · have h0 := hPre 0 (by omega)
    have h1 := hPre 1 (by omega)
    have h2 := hPre 2 (by omega)
    simp only [stepErr] at h0 h1 h2 hFail
    simp [led_driver_probe, hAlloc, hGpio, h0, h1, h2, hFail,
      err_destroy_device, err_destroy_class, err_unregister_chrdev, probeChain]

/-- Witness for C1: `probe_rollback` with `class_create` (step 1) failing
with `-EINVAL`: the chrdev region is acquired and then released, nothing
else is touched, and the error comes back unchanged. -/
theorem probe_rollback_w :
    led_driver_probe
        { allocFail := false, gpioErr := none, chrdevErr := none,
          classErr := some (-EINVAL), deviceErr := none, cdevErr := none } =
      (-EINVAL, [PEv.acq Res.chrdev, PEv.rel Res.chrdev]) := by
  have h := probe_rollback
    { allocFail := false, gpioErr := none, chrdevErr := none,
      classErr := some (-EINVAL), deviceErr := none, cdevErr := none }
    1 (by omega) (-EINVAL) rfl rfl
    (by intro i hi; interval_cases i; rfl) rfl
  simpa [probeChain] using h

/-- Counterexample to claim C2 as stated: in the attribute-group variant
(`simple_led_platform_driver_attributes_group.c`), `value_store "1"`
writes the stored value with the mutex hold depth at 0 — the struct of
that file has no lock at all — so not every surface operation accesses the
value under the instance's lock. -/
theorem group_store_unguarded :
    guardedB ((value_store_group "1" 1 { value := 0, gpio := 0 }).evs) = false := by
  decide

/-- Claim C2 (amended): in the two locked variants (sysfs-attributes and
devicefile), every operation accesses the stored value only while holding
the lock and releases the lock on every exit path, and afterwards the
stored value is exactly 0 or 1; the attribute-group variant performs its
accesses with no lock event at all, though its stored value also stays in
{0,1}. -/
theorem locked_variants_guarded (s : LedState)
    (hs : s.value = 0 ∨ s.value = 1) (buf : String) (count : Nat)
    (copyOk : Bool) (sess : Session) (bytes : List Char) (cnt : Nat) :
    (guardedB (value_show s).evs = true ∧
      lockBalanced (value_show s).evs = true) ∧
    (guardedB (value_store buf count s).evs = true ∧
      lockBalanced (value_store buf count s).evs = true ∧
      ((value_store buf count s).st.value = 0 ∨
        (value_store buf count s).st.value = 1)) ∧
    (guardedB (led_read copyOk s sess).evs = true ∧
      lockBalanced (led_read copyOk s sess).evs = true) ∧
    (guardedB (led_write copyOk bytes cnt s).evs = true ∧
      lockBalanced (led_write copyOk bytes cnt s).evs = true ∧
      ((led_write copyOk bytes cnt s).st.value = 0 ∨
        (led_write copyOk bytes cnt s).st.value = 1)) ∧
    (((value_store_group buf count s).evs.all
        (fun e => decide (e ≠ Ev.lock))) = true ∧
      ((value_store_group buf count s).st.value = 0 ∨
        (value_store_group buf count s).st.value = 1)) := by
  refine ⟨⟨?_, ?_⟩, ⟨?_, ?_, ?_⟩, ⟨?_, ?_⟩, ⟨?_, ?_, ?_⟩, ?_, ?_⟩
  · simp [value_show, guardedB, guardedFrom]
  · simp [value_show, lockBalanced, depthAfter]
  · rcases hb : kstrtol buf with _ | v <;>
      simp [value_store, hb, guardedB, guardedFrom]
  · rcases hb : kstrtol buf with _ | v <;>
      simp [value_store, hb, lockBalanced, depthAfter]
  · rcases hb : kstrtol buf with _ | v
    · simpa [value_store, hb] using hs
    · rcases eq_or_ne v 0 with hv | hv <;> simp [value_store, hb, hv]
  · rcases hp : sess.pos with _ | p <;>
      rcases copyOk <;>
      simp [led_read, hp, guardedB, guardedFrom]
  · rcases hp : sess.pos with _ | p <;>
      rcases copyOk <;>
      simp [led_read, hp, lockBalanced, depthAfter]
  · rcases hc : (if copyOk then bytes.head? else none) with _ | c
    · rcases Nat.lt_or_ge cnt 1 with h1 | h1 <;>
        simp [led_write, hc, h1, Nat.not_lt_of_ge, guardedB, guardedFrom]
    · rcases Nat.lt_or_ge cnt 1 with h1 | h1 <;>
        rcases eq_or_ne c '1' with hv | hv <;>
        simp [led_write, hc, h1, Nat.not_lt_of_ge, hv, guardedB, guardedFrom]
  · rcases hc : (if copyOk then bytes.head? else none) with _ | c
    · rcases Nat.lt_or_ge cnt 1 with h1 | h1 <;>
        simp [led_write, hc, h1, Nat.not_lt_of_ge, lockBalanced, depthAfter]
    · rcases Nat.lt_or_ge cnt 1 with h1 | h1 <;>
        rcases eq_or_ne c '1' with hv | hv <;>
        simp [led_write, hc, h1, Nat.not_lt_of_ge, hv, lockBalanced, depthAfter]
  · rcases hc : (if copyOk then bytes.head? else none) with _ | c
    · rcases Nat.lt_or_ge cnt 1 with h1 | h1 <;>
        simpa [led_write, hc, h1, Nat.not_lt_of_ge] using hs
    · rcases Nat.lt_or_ge cnt 1 with h1 | h1
      · simpa [led_write, hc, h1] using hs
      · rcases eq_or_ne c '1' with hv | hv <;>
          simp [led_write, hc, h1, Nat.not_lt_of_ge, hv]
  · rcases hb : kstrtol buf with _ | v <;>
      simp [value_store_group, hb]
  · rcases hb : kstrtol buf with _ | v
    · simpa [value_store_group, hb] using hs
    · rcases eq_or_ne v 0 with hv | hv <;> simp [value_store_group, hb, hv]

/-- Witness for C2's amended theorem: `locked_variants_guarded` at a
concrete state and inputs. -/
theorem locked_variants_guarded_w :
    guardedB ((value_store "1" 1 { value := 0, gpio := 0 }).evs) = true := by
  have h := locked_variants_guarded { value := 0, gpio := 0 } (Or.inl rfl)
    "1" 1 true { pos := 0 } [] 0
  exact h.2.1.1

/-- The platform-device state right after a successful probe of the
sysfs-attributes variant: drvdata bound, `led->dev` and `led->led_class`
non-NULL. -/
def pdevAfterProbe : PdevState :=
  { drvdata := some { hasDev := true, hasClass := true } }

/-- Counterexample to claim C8 as stated: the sysfs-variant remove never
clears the drvdata binding, so a second remove on the same instance is not
a no-op — it performs `class_destroy` again (a double release) and writes
the gpio a second time. -/
theorem second_remove_repeats :
    SREv.relClass ∈ (led_driver_remove_sysfs pdevAfterProbe).2.2 ∧
    SREv.relClass ∈ (led_driver_remove_sysfs
        (led_driver_remove_sysfs pdevAfterProbe).2.1).2.2 ∧
    SREv.gpioSet 0 ∈ (led_driver_remove_sysfs
        (led_driver_remove_sysfs pdevAfterProbe).2.1).2.2 := by
  decide

/-- Claim C8 (amended): remove on a handle with no bound instance succeeds
as a no-op; remove always returns success and leaves the drvdata binding
in place, so a second remove on the same instance repeats exactly the
first remove's teardown (safe-value write and releases) instead of being a
no-op. -/
theorem remove_noop_and_repeat :
    led_driver_remove_sysfs { drvdata := none } =
      (0, { drvdata := none }, []) ∧
    ∀ led : SysfsDev,
      (led_driver_remove_sysfs { drvdata := some led }).2.1 =
        { drvdata := some led } ∧
      (led_driver_remove_sysfs { drvdata := some led }).1 = 0 ∧
      (led_driver_remove_sysfs
          (led_driver_remove_sysfs { drvdata := some led }).2.1).2.2 =
        (led_driver_remove_sysfs { drvdata := some led }).2.2 := by
  exact ⟨rfl, fun led => ⟨rfl, rfl, rfl⟩⟩

end LedDriver
